import Mathlib

/-!
Verification development for the CIL-Demos repository.

The repository consists of two Jupyter notebooks that configure and run
imaging pipelines of the CIL library: a total-variation deblurring solved
with FISTA, and a simulated-tomography reconstruction via FBP and PDHG.

The development has two layers:

* a deep embedding of the Python statements of each notebook, transliterated
  line by line from the notebook cells (inductive types `Expr`, `ExprList`,
  `Stmt`; statement lists `nb1stmts`, `nb2stmts`), used to settle claims
  about the configuration the notebooks build;
* exact-arithmetic semantic models over `ℚ` of the small numerical
  computations the notebooks author themselves (the point-spread-function
  construction, the noise simulation and clipping, the PDHG step sizes)
  and of the objective the PDHG configuration represents.
-/

namespace CILDemos

mutual
/-- Python expressions occurring in the notebooks.  Numeric literals are
modelled as exact rationals. -/
inductive Expr where
  | var : String → Expr
  | num : ℚ → Expr
  | str : String → Expr
  | attr : Expr → String → Expr
  | kw : String → Expr → Expr
  | binop : String → Expr → Expr → Expr
  | unop : String → Expr → Expr
  | subscript : Expr → Expr → Expr
  | call : Expr → ExprList → Expr
  | listE : ExprList → Expr
  | tupleE : ExprList → Expr

inductive ExprList where
  | nil : ExprList
  | cons : Expr → ExprList → ExprList
end

/-- Build an `ExprList` from a Lean list. -/
def el : List Expr → ExprList
  | [] => ExprList.nil
  | e :: es => ExprList.cons e (el es)

/-- Python statements occurring in the notebooks.  The constructors
`tryExcept`, `ifStmt` and `raiseStmt` are part of the statement language so
that their absence from the transliterated notebooks is a checkable fact. -/
inductive Stmt where
  | importFrom : String → List String → Stmt
  | importMod : String → Stmt
  | importAs : String → String → Stmt
  | assign : String → Expr → Stmt
  | attrAssign : String → String → Expr → Stmt
  | subscriptAssign : Expr → Expr → Expr → Stmt
  | exprStmt : Expr → Stmt
  | shellCmd : String → Stmt
  | tryExcept : List Stmt → List Stmt → Stmt
  | ifStmt : Expr → List Stmt → List Stmt → Stmt
  | raiseStmt : Expr → Stmt

/-- All right-hand sides assigned to a given variable name, in program
order. -/
def bindings (stmts : List Stmt) (name : String) : List Expr :=
  stmts.filterMap fun s =>
    match s with
    | Stmt.assign n e => if n == name then some e else none
    | _ => none

/-- The final binding of a variable name, if any. -/
def bindingOf (stmts : List Stmt) (name : String) : Option Expr :=
  (bindings stmts name).getLast?

/-- Look up a keyword argument in an argument list. -/
def getKw : ExprList → String → Option Expr
  | ExprList.nil, _ => none
  | ExprList.cons (Expr.kw n v) rest, k =>
      if n == k then some v else getKw rest k
  | ExprList.cons _ rest, k => getKw rest k

/-- A keyword argument of the call bound to `name` (used for the algorithm
constructors `FISTA(...)` and `PDHG(...)`). -/
def algoKw (stmts : List Stmt) (name kwname : String) : Option Expr :=
  match bindingOf stmts name with
  | some (Expr.call _ args) => getKw args kwname
  | _ => none

/-- The `x.run(...)` method calls appearing as statements, with the receiver
name and the argument list. -/
def runCallsOf (stmts : List Stmt) : List (String × ExprList) :=
  stmts.filterMap fun s =>
    match s with
    | Stmt.exprStmt (Expr.call (Expr.attr (Expr.var x) "run") args) =>
        some (x, args)
    | _ => none

/-- Number of statements that mutate the variable `name` (assignment,
attribute assignment, or subscript assignment on it). -/
def mutationsOf (stmts : List Stmt) (name : String) : Nat :=
  (stmts.filter fun s =>
    match s with
    | Stmt.assign n _ => n == name
    | Stmt.attrAssign n _ _ => n == name
    | Stmt.subscriptAssign (Expr.attr (Expr.var n) _) _ _ => n == name
    | _ => false).length

/-- Dotted name of an attribute chain rooted at the numpy module alias
`np`, e.g. `np.random.normal` yields `random.normal`. -/
def npName : Expr → Option String
  | Expr.attr (Expr.var "np") f => some f
  | Expr.attr e f => (npName e).map (fun s => s ++ "." ++ f)
  | _ => none

mutual
/-- Names of numpy routines invoked inside an expression, in left-to-right
order. -/
def exprNpCalls : Expr → List String
  | Expr.call f args =>
      (match npName f with
       | some s => [s]
       | none => exprNpCalls f) ++ exprListNpCalls args
  | Expr.attr e _ => exprNpCalls e
  | Expr.kw _ v => exprNpCalls v
  | Expr.binop _ a b => exprNpCalls a ++ exprNpCalls b
  | Expr.unop _ a => exprNpCalls a
  | Expr.subscript a i => exprNpCalls a ++ exprNpCalls i
  | Expr.listE es => exprListNpCalls es
  | Expr.tupleE es => exprListNpCalls es
  | _ => []

def exprListNpCalls : ExprList → List String
  | ExprList.nil => []
  | ExprList.cons e es => exprNpCalls e ++ exprListNpCalls es
end

/-- Names of numpy routines invoked by a statement. -/
def stmtNpCalls : Stmt → List String
  | Stmt.assign _ e => exprNpCalls e
  | Stmt.attrAssign _ _ e => exprNpCalls e
  | Stmt.subscriptAssign o i v =>
      exprNpCalls o ++ exprNpCalls i ++ exprNpCalls v
  | Stmt.exprStmt e => exprNpCalls e
  | _ => []

/-- All numpy routines invoked across a statement list. -/
def npCallsIn (stmts : List Stmt) : List String :=
  stmts.foldr (fun s acc => stmtNpCalls s ++ acc) []

/-- Constructor name of the library call bound to `name`, when the binding
is a plain constructor call. -/
def ctorOf (stmts : List Stmt) (name : String) : Option String :=
  match bindingOf stmts name with
  | some (Expr.call (Expr.var c) _) => some c
  | _ => none

/-- Is the statement a `try`/`except` block? -/
def isHandlerStmt : Stmt → Bool
  | Stmt.tryExcept _ _ => true
  | _ => false

/-- Is the statement a conditional or a `raise`? -/
def isBranchStmt : Stmt → Bool
  | Stmt.ifStmt _ _ _ => true
  | Stmt.raiseStmt _ => true
  | _ => false

/-- Is the statement the clipping assignment
`x.array[x.array < 0] = 0`? -/
def isClipAssign : Stmt → Bool
  | Stmt.subscriptAssign (Expr.attr (Expr.var x) "array")
      (Expr.binop "<" (Expr.attr (Expr.var y) "array") (Expr.num a))
      (Expr.num b) => x == y && a == 0 && b == 0
  | _ => false

/-- Is the statement the FBP reconstruction `… = FBP(...)(...)`? -/
def isFBPApplication : Stmt → Bool
  | Stmt.assign _ (Expr.call (Expr.call (Expr.var "FBP") _) _) => true
  | _ => false

/-- Is the statement the construction `… = PDHG(...)`? -/
def isPDHGConstruction : Stmt → Bool
  | Stmt.assign _ (Expr.call (Expr.var "PDHG") _) => true
  | _ => false

/-- Transliteration of the code cells of the first notebook
(total-variation deblurring with FISTA). -/
def nb1stmts : List Stmt := [
  Stmt.importFrom "cil.optimisation.algorithms" ["FISTA"],
  Stmt.importFrom "cil.optimisation.operators" ["BlurringOperator"],
  Stmt.importFrom "cil.optimisation.functions"
    ["L2NormSquared", "LeastSquares", "TotalVariation"],
  Stmt.importFrom "cil.utilities" ["dataexample", "noise"],
  Stmt.importFrom "cil.utilities.display" ["show2D"],
  Stmt.importFrom "cil.plugins.ccpi_regularisation.functions" ["FGP_TV"],
  Stmt.importAs "numpy" "np",
  Stmt.assign "data"
    (Expr.call (Expr.attr (Expr.attr (Expr.var "dataexample") "SHAPES") "get")
      (el [])),
  Stmt.assign "ig" (Expr.attr (Expr.var "data") "geometry"),
  Stmt.assign "ks" (Expr.num 5),
  Stmt.assign "ksigma" (Expr.num 2),
  Stmt.assign "w"
    (Expr.call (Expr.attr (Expr.var "np") "exp")
      (el [Expr.binop "/"
        (Expr.unop "-"
          (Expr.binop "**"
            (Expr.call (Expr.attr (Expr.var "np") "arange")
              (el [Expr.binop "/"
                     (Expr.unop "-" (Expr.binop "-" (Expr.var "ks") (Expr.num 1)))
                     (Expr.num 2),
                   Expr.binop "+"
                     (Expr.binop "/" (Expr.binop "-" (Expr.var "ks") (Expr.num 1))
                       (Expr.num 2))
                     (Expr.num 1)]))
            (Expr.num 2)))
        (Expr.binop "*" (Expr.num 2)
          (Expr.binop "**" (Expr.var "ksigma") (Expr.num 2)))])),
  Stmt.attrAssign "w" "shape" (Expr.tupleE (el [Expr.var "ks", Expr.num 1])),
  Stmt.assign "PSF"
    (Expr.binop "*" (Expr.var "w")
      (Expr.call (Expr.attr (Expr.var "np") "transpose") (el [Expr.var "w"]))),
  Stmt.assign "PSF"
    (Expr.binop "/" (Expr.var "PSF")
      (Expr.call
        (Expr.attr (Expr.binop "**" (Expr.var "PSF") (Expr.num 2)) "sum")
        (el []))),
  Stmt.assign "PSF"
    (Expr.binop "/" (Expr.var "PSF")
      (Expr.call (Expr.attr (Expr.var "PSF") "sum") (el []))),
  Stmt.exprStmt
    (Expr.call (Expr.var "show2D")
      (el [Expr.var "PSF", Expr.kw "origin" (Expr.str "upper"),
           Expr.kw "title" (Expr.str "PSF"),
           Expr.kw "size" (Expr.tupleE (el [Expr.num 10, Expr.num 10]))])),
  Stmt.assign "BOP"
    (Expr.call (Expr.var "BlurringOperator")
      (el [Expr.var "PSF", Expr.var "ig"])),
  Stmt.assign "blurred_noisy"
    (Expr.call (Expr.attr (Expr.var "noise") "gaussian")
      (el [Expr.call (Expr.attr (Expr.var "BOP") "direct")
             (el [Expr.var "data"]),
           Expr.kw "seed" (Expr.num 10),
           Expr.kw "var" (Expr.num 0.0001)])),
  Stmt.exprStmt
    (Expr.call (Expr.var "show2D")
      (el [Expr.var "blurred_noisy", Expr.kw "origin" (Expr.str "upper"),
           Expr.kw "title" (Expr.str "Blurred+Noisy"),
           Expr.kw "size" (Expr.tupleE (el [Expr.num 10, Expr.num 10]))])),
  Stmt.assign "alpha" (Expr.num 0.05),
  Stmt.assign "G"
    (Expr.binop "*" (Expr.var "alpha")
      (Expr.call (Expr.var "TotalVariation")
        (el [Expr.kw "max_iteration" (Expr.num 10)]))),
  Stmt.assign "F"
    (Expr.call (Expr.var "LeastSquares")
      (el [Expr.var "BOP", Expr.var "blurred_noisy"])),
  Stmt.assign "fista"
    (Expr.call (Expr.var "FISTA")
      (el [Expr.kw "initial"
             (Expr.call (Expr.attr (Expr.var "ig") "allocate")
               (el [Expr.num 0])),
           Expr.kw "f" (Expr.var "F"),
           Expr.kw "g" (Expr.var "G"),
           Expr.kw "max_iteration" (Expr.num 200),
           Expr.kw "update_objective_interval" (Expr.num 50)])),
  Stmt.exprStmt
    (Expr.call (Expr.attr (Expr.var "fista") "run") (el [])),
  Stmt.exprStmt
    (Expr.call (Expr.var "show2D")
      (el [Expr.listE (el [Expr.var "data", Expr.var "blurred_noisy",
                           Expr.attr (Expr.var "fista") "solution"]),
           Expr.kw "title"
             (Expr.listE (el [Expr.str "Ground truth",
                              Expr.str "Noisy Data (Gaussian)",
                              Expr.str "Deblurred"])),
           Expr.kw "origin" (Expr.str "upper"),
           Expr.kw "num_cols" (Expr.num 3)]))]

/-- Transliteration of the code cells of the second notebook
(simulated tomography: FBP and PDHG with TV under non-negativity). -/
def nb2stmts : List Stmt := [
  Stmt.shellCmd "pip install -q condacolab",
  Stmt.importMod "condacolab",
  Stmt.exprStmt
    (Expr.call (Expr.attr (Expr.var "condacolab") "install") (el [])),
  Stmt.shellCmd "mamba install -c conda-forge -c intel -c astra-toolbox -c ccpi cil=22.0.0 astra-toolbox ccpi-regulariser tomophantom --quiet",
  Stmt.shellCmd "pip uninstall matplotlib -y",
  Stmt.importFrom "cil.framework" ["ImageGeometry"],
  Stmt.importFrom "cil.framework" ["AcquisitionGeometry"],
  Stmt.importFrom "cil.optimisation.functions"
    ["L2NormSquared", "BlockFunction", "MixedL21Norm", "IndicatorBox"],
  Stmt.importFrom "cil.optimisation.operators"
    ["GradientOperator", "BlockOperator"],
  Stmt.importFrom "cil.optimisation.algorithms" ["PDHG"],
  Stmt.importFrom "cil.plugins.astra.operators" ["ProjectionOperator"],
  Stmt.importFrom "cil.plugins.astra.processors" ["FBP"],
  Stmt.importFrom "cil.plugins" ["TomoPhantom"],
  Stmt.importFrom "cil.utilities.display" ["show2D"],
  Stmt.importFrom "cil.utilities" ["noise"],
  Stmt.importAs "matplotlib.pyplot" "plt",
  Stmt.importAs "numpy" "np",
  Stmt.importMod "cil.version",
  Stmt.exprStmt
    (Expr.call (Expr.var "print")
      (el [Expr.attr (Expr.attr (Expr.var "cil") "version") "version"])),
  Stmt.assign "N" (Expr.num 256),
  Stmt.assign "detectors" (Expr.var "N"),
  Stmt.assign "angles"
    (Expr.call (Expr.attr (Expr.var "np") "linspace")
      (el [Expr.num 0, Expr.num 180, Expr.num 180,
           Expr.kw "dtype" (Expr.str "float32")])),
  Stmt.assign "ag"
    (Expr.call
      (Expr.attr
        (Expr.call
          (Expr.attr
            (Expr.call
              (Expr.attr (Expr.var "AcquisitionGeometry") "create_Parallel2D")
              (el []))
            "set_angles")
          (el [Expr.var "angles"]))
        "set_panel")
      (el [Expr.var "detectors", Expr.kw "pixel_size" (Expr.num 0.1)])),
  Stmt.assign "ig"
    (Expr.call (Expr.attr (Expr.var "ag") "get_ImageGeometry") (el [])),
  Stmt.assign "phantom"
    (Expr.call (Expr.attr (Expr.var "TomoPhantom") "get_ImageData")
      (el [Expr.num 12, Expr.var "ig"])),
  Stmt.assign "A"
    (Expr.call (Expr.var "ProjectionOperator")
      (el [Expr.var "ig", Expr.var "ag",
           Expr.kw "device" (Expr.str "gpu")])),
  Stmt.assign "sino"
    (Expr.call (Expr.attr (Expr.var "A") "direct") (el [Expr.var "phantom"])),
  Stmt.assign "gaussian_var" (Expr.num 0.5),
  Stmt.assign "gaussian_mean" (Expr.num 0),
  Stmt.assign "n1"
    (Expr.call (Expr.attr (Expr.attr (Expr.var "np") "random") "normal")
      (el [Expr.var "gaussian_mean", Expr.var "gaussian_var",
           Expr.kw "size" (Expr.attr (Expr.var "ag") "shape")])),
  Stmt.assign "noisy_sino"
    (Expr.call (Expr.attr (Expr.var "ag") "allocate") (el [])),
  Stmt.exprStmt
    (Expr.call (Expr.attr (Expr.var "noisy_sino") "fill")
      (el [Expr.binop "+" (Expr.var "n1")
             (Expr.attr (Expr.var "sino") "array")])),
  Stmt.subscriptAssign (Expr.attr (Expr.var "noisy_sino") "array")
    (Expr.binop "<" (Expr.attr (Expr.var "noisy_sino") "array") (Expr.num 0))
    (Expr.num 0),
  Stmt.exprStmt
    (Expr.call (Expr.var "show2D")
      (el [Expr.listE (el [Expr.var "phantom", Expr.var "sino",
                           Expr.var "noisy_sino"]),
           Expr.kw "title"
             (Expr.listE (el [Expr.str "Ground Truth", Expr.str "Sinogram",
                              Expr.str "Noisy Sinogram"])),
           Expr.kw "num_cols" (Expr.num 3),
           Expr.kw "cmap" (Expr.str "inferno")])),
  Stmt.assign "fbp_recon"
    (Expr.call
      (Expr.call (Expr.var "FBP")
        (el [Expr.var "ig", Expr.var "ag",
             Expr.kw "device" (Expr.str "cpu")]))
      (el [Expr.var "noisy_sino"])),
  Stmt.exprStmt
    (Expr.call (Expr.var "show2D")
      (el [Expr.listE (el [Expr.var "phantom", Expr.var "fbp_recon"]),
           Expr.kw "title"
             (Expr.listE (el [Expr.str "Ground Truth",
                              Expr.str "FBP reconstruction"])),
           Expr.kw "cmap" (Expr.str "inferno"),
           Expr.kw "fix_range" (Expr.tupleE (el [Expr.num 0, Expr.num 1])),
           Expr.kw "size" (Expr.tupleE (el [Expr.num 10, Expr.num 10]))])),
  Stmt.assign "Grad"
    (Expr.call (Expr.var "GradientOperator") (el [Expr.var "ig"])),
  Stmt.assign "K"
    (Expr.call (Expr.var "BlockOperator")
      (el [Expr.var "A", Expr.var "Grad"])),
  Stmt.assign "alpha" (Expr.num 0.1),
  Stmt.assign "f1"
    (Expr.binop "*" (Expr.num 0.5)
      (Expr.call (Expr.var "L2NormSquared")
        (el [Expr.kw "b" (Expr.var "noisy_sino")]))),
  Stmt.assign "f2"
    (Expr.binop "*" (Expr.var "alpha")
      (Expr.call (Expr.var "MixedL21Norm") (el []))),
  Stmt.assign "f"
    (Expr.call (Expr.var "BlockFunction")
      (el [Expr.var "f1", Expr.var "f2"])),
  Stmt.assign "g"
    (Expr.call (Expr.var "IndicatorBox")
      (el [Expr.kw "lower" (Expr.num 0)])),
  Stmt.assign "normK"
    (Expr.call (Expr.attr (Expr.var "K") "norm") (el [])),
  Stmt.assign "sigma"
    (Expr.binop "/" (Expr.num 1) (Expr.var "normK")),
  Stmt.assign "tau"
    (Expr.binop "/" (Expr.num 1) (Expr.var "normK")),
  Stmt.assign "pdhg"
    (Expr.call (Expr.var "PDHG")
      (el [Expr.kw "f" (Expr.var "f"),
           Expr.kw "g" (Expr.var "g"),
           Expr.kw "operator" (Expr.var "K"),
           Expr.kw "sigma" (Expr.var "sigma"),
           Expr.kw "tau" (Expr.var "tau"),
           Expr.kw "max_iteration" (Expr.num 200),
           Expr.kw "update_objective_interval" (Expr.num 50)])),
  Stmt.exprStmt
    (Expr.call (Expr.attr (Expr.var "pdhg") "run")
      (el [Expr.kw "verbose" (Expr.num 2)])),
  Stmt.exprStmt
    (Expr.call (Expr.var "show2D")
      (el [Expr.listE (el [Expr.attr (Expr.var "pdhg") "solution",
                           Expr.var "fbp_recon", Expr.var "phantom"]),
           Expr.kw "title"
             (Expr.listE (el [Expr.str "TV regularisation", Expr.str "FBP",
                              Expr.str "Ground Truth"])),
           Expr.kw "cmap" (Expr.str "inferno"),
           Expr.kw "num_cols" (Expr.num 3),
           Expr.kw "fix_range" (Expr.tupleE (el [Expr.num 0, Expr.num 1]))])),
  Stmt.exprStmt
    (Expr.call (Expr.attr (Expr.var "plt") "figure")
      (el [Expr.kw "figsize" (Expr.tupleE (el [Expr.num 30, Expr.num 15]))])),
  Stmt.exprStmt
    (Expr.call (Expr.attr (Expr.var "plt") "plot")
      (el [Expr.call
             (Expr.attr
               (Expr.call (Expr.attr (Expr.var "phantom") "get_slice")
                 (el [Expr.kw "horizontal_y"
                        (Expr.call (Expr.var "int")
                          (el [Expr.binop "/" (Expr.var "N") (Expr.num 2)]))]))
               "as_array")
             (el []),
           Expr.kw "label" (Expr.str "Ground Truth"),
           Expr.kw "linewidth" (Expr.num 5)])),
  Stmt.exprStmt
    (Expr.call (Expr.attr (Expr.var "plt") "plot")
      (el [Expr.call
             (Expr.attr
               (Expr.call (Expr.attr (Expr.var "fbp_recon") "get_slice")
                 (el [Expr.kw "horizontal_y"
                        (Expr.call (Expr.var "int")
                          (el [Expr.binop "/" (Expr.var "N") (Expr.num 2)]))]))
               "as_array")
             (el []),
           Expr.kw "label" (Expr.str "FBP"),
           Expr.kw "linewidth" (Expr.num 5),
           Expr.kw "linestyle" (Expr.str "dashed")])),
  Stmt.exprStmt
    (Expr.call (Expr.attr (Expr.var "plt") "plot")
      (el [Expr.call
             (Expr.attr
               (Expr.call
                 (Expr.attr (Expr.attr (Expr.var "pdhg") "solution")
                   "get_slice")
                 (el [Expr.kw "horizontal_y"
                        (Expr.call (Expr.var "int")
                          (el [Expr.binop "/" (Expr.var "N") (Expr.num 2)]))]))
               "as_array")
             (el []),
           Expr.kw "label" (Expr.str "TV"),
           Expr.kw "linewidth" (Expr.num 5)])),
  Stmt.exprStmt
    (Expr.call (Expr.attr (Expr.var "plt") "legend") (el [])),
  Stmt.exprStmt
    (Expr.call (Expr.attr (Expr.var "plt") "title")
      (el [Expr.str "Middle Line Profiles"])),
  Stmt.exprStmt
    (Expr.call (Expr.attr (Expr.var "plt") "show") (el []))]

/-! ### Semantic models (exact rational arithmetic) -/

/-- Elementwise model of the noisy-sinogram construction of the second
notebook: `noisy_sino.fill(n1 + sino.array)` followed by
`noisy_sino.array[noisy_sino.array < 0] = 0`.  Here `s` is the clean
sinogram entry and `n` the Gaussian sample at the same position. -/
def noisySinoEntry (s n : ℚ) : ℚ := if n + s < 0 then 0 else n + s

/-- The values of `np.arange(-(ks-1)/2, (ks-1)/2+1)` with `ks = 5`:
`-2, -1, 0, 1, 2`. -/
def arangeVals : Fin 5 → ℚ := fun i => (i.val : ℚ) - 2

/-- The PSF width parameter `ksigma = 2` of the first notebook. -/
def ksigma : ℚ := 2

/-- The 1-D window `w = np.exp(-arange**2/(2*ksigma**2))`.  The
exponential is modelled by an abstract function `E : ℚ → ℚ`; the claims
about the PSF use only that `E` is strictly positive. -/
def wvec (E : ℚ → ℚ) : Fin 5 → ℚ :=
  fun i => E (-(arangeVals i) ^ 2 / (2 * ksigma ^ 2))

/-- `PSF = w * np.transpose(w)`: the outer product. -/
def PSF0 (E : ℚ → ℚ) (i j : Fin 5) : ℚ := wvec E i * wvec E j

/-- `(PSF**2).sum()` over the outer product. -/
def PSF0sqSum (E : ℚ → ℚ) : ℚ := ∑ i, ∑ j, (PSF0 E i j) ^ 2

/-- `PSF = PSF/(PSF**2).sum()`: first normalisation. -/
def PSF1 (E : ℚ → ℚ) (i j : Fin 5) : ℚ := PSF0 E i j / PSF0sqSum E

/-- `PSF.sum()` after the first normalisation. -/
def PSF1sum (E : ℚ → ℚ) : ℚ := ∑ i, ∑ j, PSF1 E i j

/-- `PSF = PSF/PSF.sum()`: the final point spread function. -/
def PSF2 (E : ℚ → ℚ) (i j : Fin 5) : ℚ := PSF1 E i j / PSF1sum E

/-- Sum of all entries of the outer product. -/
def PSF0sum (E : ℚ → ℚ) : ℚ := ∑ i, ∑ j, PSF0 E i j

/-- `sigma = 1./normK` in the second notebook. -/
def pdhgSigma (normK : ℚ) : ℚ := 1 / normK

/-- `tau = 1./normK` in the second notebook. -/
def pdhgTau (normK : ℚ) : ℚ := 1 / normK

/-- Pixel index space of the 256×256 tomography image. -/
abbrev ImgIdx := Fin 256 × Fin 256

/-- Index space of the 180-angle × 256-detector sinogram. -/
abbrev SinoIdx := Fin 180 × Fin 256

/-- A tomography image over exact rationals. -/
abbrev Img := ImgIdx → ℚ

/-- A sinogram over exact rationals. -/
abbrev Sino := SinoIdx → ℚ

/-- A two-component gradient field over the image. -/
abbrev GradField := ImgIdx → Fin 2 → ℚ

/-- `L2NormSquared(b=b)` evaluated at `y`: the squared 2-norm of
`y - b`. -/
def l2NormSquaredB (b y : Sino) : ℚ := ∑ i, (y i - b i) ^ 2

/-- `MixedL21Norm()` evaluated at a gradient field: the sum over pixels of
the Euclidean norm of the two components.  The square root is modelled by
an abstract `rt : ℚ → ℚ`; it appears identically on both sides of the
comparison and its properties are never used. -/
def mixedL21 (rt : ℚ → ℚ) (y : GradField) : ℚ :=
  ∑ p, rt ((y p 0) ^ 2 + (y p 1) ^ 2)

/-- `IndicatorBox(lower=0)` evaluated at `u`: `0` on the non-negative
orthant and `+∞` outside it. -/
def indicatorBoxLower (u : Img) : WithTop ℚ :=
  if ∀ i, 0 ≤ u i then 0 else ⊤

/-- `BlockFunction(0.5*L2NormSquared(b=b), 0.1*MixedL21Norm())` evaluated
at `BlockOperator(A, Grad).direct(u) = (A u, D u)`: the sum of the two
component functions at the two block components. -/
def blockFEval (rt : ℚ → ℚ) (b : Sino) (A : Img → Sino)
    (D : Img → GradField) (u : Img) : ℚ :=
  0.5 * l2NormSquaredB b (A u) + 0.1 * mixedL21 rt (D u)

/-- The composite objective `f(Ku) + g(u)` that the second notebook hands
to PDHG. -/
def pdhgObjective (rt : ℚ → ℚ) (b : Sino) (A : Img → Sino)
    (D : Img → GradField) (u : Img) : WithTop ℚ :=
  ((blockFEval rt b A D u : ℚ) : WithTop ℚ) + indicatorBoxLower u

/-- Modelled from the spec: the TV-regularised least-squares objective
under a non-negativity constraint that the notebook states as problem (1),
`(1/2)‖Au - g‖² + α‖Du‖₂₁ + I(u ≥ 0)` with `α = 0.1 = 1/10`. -/
def tvObjectiveSpec (rt : ℚ → ℚ) (b : Sino) (A : Img → Sino)
    (D : Img → GradField) (u : Img) : WithTop ℚ :=
  (((1 / 2 : ℚ) * l2NormSquaredB b (A u)
      + (1 / 10 : ℚ) * mixedL21 rt (D u) : ℚ) : WithTop ℚ)
    + indicatorBoxLower u

/-! ### Helper lemmas for the PSF pipeline -/

lemma PSF0_pos (E : ℚ → ℚ) (hE : ∀ q, 0 < E q) (i j : Fin 5) :
    0 < PSF0 E i j :=
  mul_pos (hE _) (hE _)

lemma PSF0sqSum_pos (E : ℚ → ℚ) (hE : ∀ q, 0 < E q) : 0 < PSF0sqSum E := by
  refine Finset.sum_pos (fun i _ => ?_) Finset.univ_nonempty
  refine Finset.sum_pos (fun j _ => ?_) Finset.univ_nonempty
  exact pow_pos (PSF0_pos E hE i j) 2

lemma PSF0sum_pos (E : ℚ → ℚ) (hE : ∀ q, 0 < E q) : 0 < PSF0sum E := by
  refine Finset.sum_pos (fun i _ => ?_) Finset.univ_nonempty
  exact Finset.sum_pos (fun j _ => PSF0_pos E hE i j) Finset.univ_nonempty

lemma PSF1sum_eq (E : ℚ → ℚ) : PSF1sum E = PSF0sum E / PSF0sqSum E := by
  simp only [PSF1sum, PSF1, PSF0sum, ← Finset.sum_div]

lemma PSF1sum_pos (E : ℚ → ℚ) (hE : ∀ q, 0 < E q) : 0 < PSF1sum E := by
  rw [PSF1sum_eq]
  exact div_pos (PSF0sum_pos E hE) (PSF0sqSum_pos E hE)

/-! ### Claim theorems -/

/-- Claim C1: the deblurring notebook builds FISTA with smooth part
`F = LeastSquares(BOP, blurred_noisy)`, non-smooth part
`G = alpha * TotalVariation(max_iteration=10)` with `alpha = 0.05`, and
initial iterate `ig.allocate(0)`, where `BOP` is the blurring operator and
`blurred_noisy` the blurred noisy image, and the final display shows
`fista.solution` as the deblurred result. -/
theorem c1_fista_deblurring_config :
    bindings nb1stmts "F" =
      [Expr.call (Expr.var "LeastSquares")
        (el [Expr.var "BOP", Expr.var "blurred_noisy"])] ∧
    bindings nb1stmts "alpha" = [Expr.num 0.05] ∧
    bindings nb1stmts "G" =
      [Expr.binop "*" (Expr.var "alpha")
        (Expr.call (Expr.var "TotalVariation")
          (el [Expr.kw "max_iteration" (Expr.num 10)]))] ∧
    bindings nb1stmts "BOP" =
      [Expr.call (Expr.var "BlurringOperator")
        (el [Expr.var "PSF", Expr.var "ig"])] ∧
    algoKw nb1stmts "fista" "initial" =
      some (Expr.call (Expr.attr (Expr.var "ig") "allocate")
        (el [Expr.num 0])) ∧
    algoKw nb1stmts "fista" "f" = some (Expr.var "F") ∧
    algoKw nb1stmts "fista" "g" = some (Expr.var "G") ∧
    nb1stmts.getLast? = some (Stmt.exprStmt
      (Expr.call (Expr.var "show2D")
        (el [Expr.listE (el [Expr.var "data", Expr.var "blurred_noisy",
                             Expr.attr (Expr.var "fista") "solution"]),
             Expr.kw "title"
               (Expr.listE (el [Expr.str "Ground truth",
                                Expr.str "Noisy Data (Gaussian)",
                                Expr.str "Deblurred"])),
             Expr.kw "origin" (Expr.str "upper"),
             Expr.kw "num_cols" (Expr.num 3)]))) :=
  ⟨rfl, rfl, rfl, rfl, rfl, rfl, rfl, rfl⟩

/-- Claim C2: the PDHG configuration of the tomography notebook —
`K = BlockOperator(A, Grad)`,
`f = BlockFunction(0.5*L2NormSquared(b=noisy_sino), alpha*MixedL21Norm())`
with `alpha = 0.1`, `g = IndicatorBox(lower=0)` — is a faithful splitting
of the stated objective: `f(Ku) + g(u)` equals
`(1/2)‖Au - noisy_sino‖² + 0.1‖Du‖₂₁ + I(u ≥ 0)` for every image `u`,
projection map `A`, gradient map `D` and square-root model `rt`. -/
theorem c2_pdhg_objective_split :
    bindings nb2stmts "K" =
      [Expr.call (Expr.var "BlockOperator")
        (el [Expr.var "A", Expr.var "Grad"])] ∧
    bindings nb2stmts "alpha" = [Expr.num 0.1] ∧
    bindings nb2stmts "f1" =
      [Expr.binop "*" (Expr.num 0.5)
        (Expr.call (Expr.var "L2NormSquared")
          (el [Expr.kw "b" (Expr.var "noisy_sino")]))] ∧
    bindings nb2stmts "f2" =
      [Expr.binop "*" (Expr.var "alpha")
        (Expr.call (Expr.var "MixedL21Norm") (el []))] ∧
    bindings nb2stmts "f" =
      [Expr.call (Expr.var "BlockFunction")
        (el [Expr.var "f1", Expr.var "f2"])] ∧
    bindings nb2stmts "g" =
      [Expr.call (Expr.var "IndicatorBox")
        (el [Expr.kw "lower" (Expr.num 0)])] ∧
    ∀ (rt : ℚ → ℚ) (b : Sino) (A : Img → Sino) (D : Img → GradField)
      (u : Img), pdhgObjective rt b A D u = tvObjectiveSpec rt b A D u := by
  refine ⟨rfl, rfl, rfl, rfl, rfl, rfl, ?_⟩
  intro rt b A D u
  have h : blockFEval rt b A D u
      = (1 / 2 : ℚ) * l2NormSquaredB b (A u)
        + (1 / 10 : ℚ) * mixedL21 rt (D u) := by
    unfold blockFEval
    norm_num
  unfold pdhgObjective tvObjectiveSpec
  rw [h]

/-- Claim C3 counterexample: with clean-sinogram entry `0` and Gaussian
sample `-1`, the noisy-sinogram entry actually constructed is `0`, not the
sum `0 + (-1)` that a purely additive corruption would give, because the
notebook also sets negative entries to zero. -/
theorem c3_noisy_sino_counterexample :
    noisySinoEntry 0 (-1) ≠ 0 + (-1) := by
  simp only [noisySinoEntry]
  norm_num

/-- Claim C3 amended: the noisy sinogram is the clean sinogram
`A.direct(phantom)` plus a zero-mean Gaussian sample of standard deviation
`0.5` (`np.random.normal(gaussian_mean, gaussian_var, size=ag.shape)` with
`gaussian_mean = 0` and `gaussian_var = 0.5` as the scale argument), after
which negative entries are set to zero: elementwise the value handed to
FBP and PDHG is `max (n + s) 0`. -/
theorem c3_noisy_sino_amended :
    bindings nb2stmts "sino" =
      [Expr.call (Expr.attr (Expr.var "A") "direct")
        (el [Expr.var "phantom"])] ∧
    bindings nb2stmts "gaussian_mean" = [Expr.num 0] ∧
    bindings nb2stmts "gaussian_var" = [Expr.num 0.5] ∧
    bindings nb2stmts "n1" =
      [Expr.call (Expr.attr (Expr.attr (Expr.var "np") "random") "normal")
        (el [Expr.var "gaussian_mean", Expr.var "gaussian_var",
             Expr.kw "size" (Expr.attr (Expr.var "ag") "shape")])] ∧
    (∀ s n : ℚ, noisySinoEntry s n = max (n + s) 0) := by
  refine ⟨rfl, rfl, rfl, rfl, ?_⟩
  intro s n
  simp only [noisySinoEntry]
  rcases lt_or_le (n + s) 0 with h | h
  · rw [if_pos h, max_eq_right h.le]
  · rw [if_neg (not_lt.mpr h), max_eq_left h]

/-- Claim C4 counterexample: the deblurring notebook itself authors
numerical computation in raw numpy — it invokes `np.exp`, `np.arange` and
`np.transpose` to build the PSF — so the list of numpy routines it calls
is not empty. -/
theorem c4_numerics_counterexample : npCallsIn nb1stmts ≠ [] := by
  decide

/-- Claim C4 amended: the raw-numpy numerical computation authored inside
the notebooks is confined to the PSF construction (`np.exp`, `np.arange`,
`np.transpose` and the ensuing normalisations), the angle grid
(`np.linspace`) and the noise simulation (`np.random.normal` with the
addition and clipping); every operator, regularisation function and solver
is obtained from a library constructor call. -/
theorem c4_numerics_amended :
    npCallsIn nb1stmts = ["exp", "arange", "transpose"] ∧
    npCallsIn nb2stmts = ["linspace", "random.normal"] ∧
    ctorOf nb1stmts "BOP" = some "BlurringOperator" ∧
    ctorOf nb1stmts "F" = some "LeastSquares" ∧
    ctorOf nb1stmts "fista" = some "FISTA" ∧
    ctorOf nb2stmts "A" = some "ProjectionOperator" ∧
    ctorOf nb2stmts "Grad" = some "GradientOperator" ∧
    ctorOf nb2stmts "K" = some "BlockOperator" ∧
    ctorOf nb2stmts "f" = some "BlockFunction" ∧
    ctorOf nb2stmts "g" = some "IndicatorBox" ∧
    ctorOf nb2stmts "pdhg" = some "PDHG" :=
  ⟨rfl, rfl, rfl, rfl, rfl, rfl, rfl, rfl, rfl, rfl, rfl⟩

/-- Claim C5: both solvers are configured with `max_iteration = 200`; the
only `run` calls are `fista.run()` (no argument, so it runs to its
configured iteration count) and `pdhg.run(verbose=2)`. -/
theorem c5_iteration_counts :
    algoKw nb1stmts "fista" "max_iteration" = some (Expr.num 200) ∧
    algoKw nb2stmts "pdhg" "max_iteration" = some (Expr.num 200) ∧
    runCallsOf nb1stmts = [("fista", el [])] ∧
    runCallsOf nb2stmts = [("pdhg", el [Expr.kw "verbose" (Expr.num 2)])] :=
  ⟨rfl, rfl, rfl, rfl⟩

/-- Claim C6: the degradation order in the deblurring notebook is blur
first, noise second — `blurred_noisy = noise.gaussian(BOP.direct(data),
seed=10, var=0.0001)` — while `data` is assigned exactly once (the loaded
image) and is displayed as ground truth in the final cell. -/
theorem c6_degradation_order :
    bindings nb1stmts "blurred_noisy" =
      [Expr.call (Expr.attr (Expr.var "noise") "gaussian")
        (el [Expr.call (Expr.attr (Expr.var "BOP") "direct")
               (el [Expr.var "data"]),
             Expr.kw "seed" (Expr.num 10),
             Expr.kw "var" (Expr.num 0.0001)])] ∧
    bindings nb1stmts "data" =
      [Expr.call
        (Expr.attr (Expr.attr (Expr.var "dataexample") "SHAPES") "get")
        (el [])] ∧
    mutationsOf nb1stmts "data" = 1 ∧
    nb1stmts.getLast? = some (Stmt.exprStmt
      (Expr.call (Expr.var "show2D")
        (el [Expr.listE (el [Expr.var "data", Expr.var "blurred_noisy",
                             Expr.attr (Expr.var "fista") "solution"]),
             Expr.kw "title"
               (Expr.listE (el [Expr.str "Ground truth",
                                Expr.str "Noisy Data (Gaussian)",
                                Expr.str "Deblurred"])),
             Expr.kw "origin" (Expr.str "upper"),
             Expr.kw "num_cols" (Expr.num 3)]))) :=
  ⟨rfl, rfl, rfl, rfl⟩

/-- Claim C7: neither notebook contains a `try`/`except` handler, a
conditional statement, or a `raise`; the statement lists are straight-line
code, so an exception raised by a library call has no in-notebook handler
to stop it. -/
theorem c7_no_error_handling :
    nb1stmts.any isHandlerStmt = false ∧
    nb2stmts.any isHandlerStmt = false ∧
    nb1stmts.any isBranchStmt = false ∧
    nb2stmts.any isBranchStmt = false :=
  ⟨rfl, rfl, rfl, rfl⟩

/-- Claim C8: the constructed 5×5 PSF is symmetric, has strictly positive
entries, sums to exactly 1, and the intermediate division by
`(PSF**2).sum()` is irrelevant to the end result: the final PSF equals the
outer product divided by its own total.  The exponential `np.exp` is
modelled by an arbitrary strictly positive function `E`. -/
theorem c8_psf_properties (E : ℚ → ℚ) (hE : ∀ q, 0 < E q) :
    (∀ i j, PSF2 E i j = PSF2 E j i) ∧
    (∀ i j, 0 < PSF2 E i j) ∧
    (∑ i, ∑ j, PSF2 E i j) = 1 ∧
    (∀ i j, PSF2 E i j = PSF0 E i j / PSF0sum E) := by
  have hS2 := PSF0sqSum_pos E hE
  have hS0 := PSF0sum_pos E hE
  have hS1 := PSF1sum_pos E hE
  refine ⟨?_, ?_, ?_, ?_⟩
  · intro i j
    simp [PSF2, PSF1, PSF0, mul_comm]
  · intro i j
    exact div_pos (div_pos (PSF0_pos E hE i j) hS2) hS1
  · have h1 : (∑ i, ∑ j, PSF2 E i j) = (∑ i, ∑ j, PSF1 E i j) / PSF1sum E := by
      simp only [PSF2, ← Finset.sum_div]
    have h2 : (∑ i, ∑ j, PSF1 E i j) = PSF1sum E := rfl
    rw [h1, h2, div_self (ne_of_gt hS1)]
  · intro i j
    have hc : PSF0sqSum E ≠ 0 := ne_of_gt hS2
    have h0 : PSF0sum E ≠ 0 := ne_of_gt hS0
    simp only [PSF2, PSF1, PSF1sum_eq]
    field_simp

/-- Witness for claim C8 with the exponential modelled by the constant-1
positive function. -/
theorem c8_psf_properties_witness :
    (∀ q : ℚ, 0 < (fun _ : ℚ => (1 : ℚ)) q) ∧
    (∀ i j, 0 < PSF2 (fun _ : ℚ => (1 : ℚ)) i j) ∧
    (∑ i, ∑ j, PSF2 (fun _ : ℚ => (1 : ℚ)) i j) = 1 :=
  ⟨fun _ => one_pos,
   (c8_psf_properties (fun _ : ℚ => (1 : ℚ)) (fun _ => one_pos)).2.1,
   (c8_psf_properties (fun _ : ℚ => (1 : ℚ)) (fun _ => one_pos)).2.2.1⟩

/-- Claim C9: `sigma` and `tau` are both bound to `1./normK` with
`normK = K.norm()`; hence the two step sizes are equal and, for any
positive operator norm, `sigma * tau * normK² = 1`, meeting the PDHG
convergence condition `sigma*tau*‖K‖² ≤ 1` with equality. -/
theorem c9_pdhg_stepsizes (nK : ℚ) (h : 0 < nK) :
    bindings nb2stmts "normK" =
      [Expr.call (Expr.attr (Expr.var "K") "norm") (el [])] ∧
    bindings nb2stmts "sigma" =
      [Expr.binop "/" (Expr.num 1) (Expr.var "normK")] ∧
    bindings nb2stmts "tau" =
      [Expr.binop "/" (Expr.num 1) (Expr.var "normK")] ∧
    pdhgSigma nK = pdhgTau nK ∧
    pdhgSigma nK * pdhgTau nK * nK ^ 2 = 1 := by
  have hne : nK ≠ 0 := ne_of_gt h
  refine ⟨rfl, rfl, rfl, rfl, ?_⟩
  field_simp [pdhgSigma, pdhgTau]
  ring

/-- Witness for claim C9 at the concrete operator norm 2. -/
theorem c9_pdhg_stepsizes_witness :
    (0 : ℚ) < 2 ∧ pdhgSigma 2 * pdhgTau 2 * (2 : ℚ) ^ 2 = 1 :=
  ⟨by norm_num, (c9_pdhg_stepsizes 2 (by norm_num)).2.2.2.2⟩

/-- Claim C10: the clipping assignment occurs before both the FBP
application and the PDHG construction, and after it every entry of the
noisy sinogram is non-negative, even though the Gaussian sample alone can
drive an entry negative. -/
theorem c10_noisy_sino_nonneg :
    nb2stmts.any isClipAssign = true ∧
    nb2stmts.findIdx isClipAssign < nb2stmts.findIdx isFBPApplication ∧
    nb2stmts.findIdx isClipAssign < nb2stmts.findIdx isPDHGConstruction ∧
    (∀ s n : ℚ, 0 ≤ noisySinoEntry s n) ∧
    (∃ s n : ℚ, n + s < 0) := by
  refine ⟨rfl, by decide, by decide, ?_, ⟨0, -1, by norm_num⟩⟩
  intro s n
  simp only [noisySinoEntry]
  rcases lt_or_le (n + s) 0 with h | h
  · rw [if_pos h]
  · rw [if_neg (not_lt.mpr h)]
    exact h

end CILDemos
